import Mathlib

/-!
Verification of the error taxonomy and resource-configuration model of
`core/wasm/src/types.rs`: the `PrepareError` / `RuntimeError` / `Error`
taxonomy, the conversions from the interpreter's trap and error types,
the `Display` strings, and the default `Config`.

The interpreter's own types (`wasmi::TrapKind`, `wasmi::Trap`,
`wasmi::Error`) are external to the file; they are embedded below with
exactly the constructors the source matches on (the `match` over
`TrapKind` in the source is exhaustive with no wildcard, which fixes the
constructor set; the `wasmi::Error` constructor set is the interface the
source's catch-all arm ranges over). Opaque payloads (`Box<dyn HostError>`)
are embedded as an abstract numeric tag, string payloads as `String`.
-/

namespace WasmTypes

/-- Trap kinds raised by the interpreter (`wasmi::TrapKind`); the opaque
host payload of `Host` is embedded as a numeric tag. -/
inductive TrapKind where
  | Unreachable
  | MemoryAccessOutOfBounds
  | TableAccessOutOfBounds
  | ElemUninitialized
  | DivisionByZero
  | InvalidConversionToInt
  | UnexpectedSignature
  | StackOverflow
  | Host (payload : Nat)
  deriving DecidableEq, Repr

/-- A trap (`wasmi::Trap`) carries its kind; the source reads it via
`trap.kind()`. -/
structure Trap where
  kind : TrapKind
  deriving DecidableEq, Repr

/-- Interpreter-level error (`wasmi::Error`): the constructor set of the
interpreter's error enum as consumed by the source (string payloads kept
verbatim, the opaque host payload as a numeric tag). -/
inductive WasmiError where
  | Validation (s : String)
  | Instantiation (s : String)
  | Function (s : String)
  | Table (s : String)
  | Memory (s : String)
  | Global (s : String)
  | Value (s : String)
  | Trap (t : Trap)
  | Host (payload : Nat)
  deriving DecidableEq, Repr

/-- `PrepareError` from the source: reasons a module fails to become
executable. -/
inductive PrepareError where
  | Serialization
  | Deserialization
  | InternalMemoryDeclared
  | GasInstrumentation
  | StackHeightInstrumentation
  | Invoke
  | Instantiate
  | Memory
  deriving DecidableEq, Repr

/-- `RuntimeError` from the source: causes of abnormal termination during
execution; `Panic` is the single variant carrying a dynamic message. -/
inductive RuntimeError where
  | StorageReadError
  | StorageUpdateError
  | MemoryAccessViolation
  | InvalidReturn
  | InvalidGasState
  | BalanceQueryError
  | AllocationFailed
  | GasLimit
  | Unknown
  | BadUtf8
  | Log
  | Other
  | InvalidSyscall
  | Unreachable
  | InvalidVirtualCall
  | DivisionByZero
  | InvalidConversionToInt
  | StackOverflow
  | Panic (msg : String)
  deriving DecidableEq, Repr

/-- `impl From<Trap> for RuntimeError`: the `match *trap.kind()` from the
source, arm for arm. -/
def RuntimeError.fromTrap (trap : Trap) : RuntimeError :=
  match trap.kind with
  | TrapKind.Unreachable => RuntimeError.Unreachable
  | TrapKind.MemoryAccessOutOfBounds => RuntimeError.MemoryAccessViolation
  | TrapKind.TableAccessOutOfBounds => RuntimeError.InvalidVirtualCall
  | TrapKind.ElemUninitialized => RuntimeError.InvalidVirtualCall
  | TrapKind.DivisionByZero => RuntimeError.DivisionByZero
  | TrapKind.InvalidConversionToInt => RuntimeError.InvalidConversionToInt
  | TrapKind.UnexpectedSignature => RuntimeError.InvalidVirtualCall
  | TrapKind.StackOverflow => RuntimeError.StackOverflow
  | TrapKind.Host _ => RuntimeError.Other

/-- `impl From<WasmiError> for RuntimeError`: `Value(_)` and `Memory(_)`
get their own cases, everything else falls to the source's `_` arm. -/
def RuntimeError.fromWasmiError (err : WasmiError) : RuntimeError :=
  match err with
  | WasmiError.Value _ => RuntimeError.InvalidSyscall
  | WasmiError.Memory _ => RuntimeError.MemoryAccessViolation
  | _ => RuntimeError.Other

/-- `impl Display for RuntimeError`: the string each variant writes
(`write!(f, "Panic: {}", msg)` concatenates the message verbatim). -/
def RuntimeError.displayString (e : RuntimeError) : String :=
  match e with
  | RuntimeError.StorageReadError => "Storage read error"
  | RuntimeError.StorageUpdateError => "Storage update error"
  | RuntimeError.MemoryAccessViolation => "Memory access violation"
  | RuntimeError.InvalidGasState => "Invalid gas state"
  | RuntimeError.BalanceQueryError => "Balance query resulted in an error"
  | RuntimeError.InvalidReturn => "Invalid return value"
  | RuntimeError.Unknown => "Unknown runtime function invoked"
  | RuntimeError.AllocationFailed => "Memory allocation failed (OOM)"
  | RuntimeError.BadUtf8 => "String encoding is bad utf-8 sequence"
  | RuntimeError.GasLimit => "Invocation resulted in gas limit violated"
  | RuntimeError.Log => "Error occured while logging an event"
  | RuntimeError.InvalidSyscall => "Invalid syscall signature encountered at runtime"
  | RuntimeError.Other => "Other unspecified error"
  | RuntimeError.Unreachable => "Unreachable instruction encountered"
  | RuntimeError.InvalidVirtualCall => "Invalid virtual call"
  | RuntimeError.DivisionByZero => "Division by zero"
  | RuntimeError.StackOverflow => "Stack overflow"
  | RuntimeError.InvalidConversionToInt => "Invalid conversion to integer"
  | RuntimeError.Panic msg => "Panic: " ++ msg

/-- Whether a `RuntimeError` is the `Panic` variant. -/
def RuntimeError.isPanic (e : RuntimeError) : Bool :=
  match e with
  | RuntimeError.Panic _ => true
  | _ => false

/-- Top-level `Error` from the source, unifying dispatch-time failures
with wrapped runtime, preparation, interpreter and trap failures. -/
inductive Error where
  | BadUtf8
  | EmptyMethodName
  | PrivateMethod
  | Runtime (e : RuntimeError)
  | Prepare (p : PrepareError)
  | Interpreter (w : WasmiError)
  | Trap (t : Trap)
  deriving DecidableEq, Repr

/-- `impl From<WasmiError> for Error`: wraps verbatim. -/
def Error.fromWasmiError (e : WasmiError) : Error := Error.Interpreter e

/-- `impl From<Trap> for Error`: wraps verbatim. -/
def Error.fromTrap (e : WasmTypes.Trap) : Error := Error.Trap e

/-- `impl From<RuntimeError> for Error`: wraps verbatim. -/
def Error.fromRuntimeError (e : RuntimeError) : Error := Error.Runtime e

/-- Pattern-matching the `Runtime` case of `Error`: the inner
`RuntimeError` when the value is `Error::Runtime`. -/
def Error.runtimeInner (e : Error) : Option RuntimeError :=
  match e with
  | Error.Runtime r => some r
  | _ => none

/-- Pattern-matching the `Prepare` case of `Error`: the inner
`PrepareError` when the value is `Error::Prepare`. -/
def Error.prepareInner (e : Error) : Option PrepareError :=
  match e with
  | Error.Prepare p => some p
  | _ => none

/-- `Config` (the `ExecutionConfig` of the spec): per-invocation gas
costs and limits. -/
structure Config where
  grow_mem_cost : Nat
  regular_op_cost : Nat
  return_data_per_byte_cost : Nat
  max_stack_height : Nat
  max_memory_pages : Nat
  gas_limit : Nat
  deriving DecidableEq, Repr

/-- `impl Default for Config` from the source. -/
def Config.default : Config :=
  { grow_mem_cost := 1
    regular_op_cost := 1
    return_data_per_byte_cost := 1
    max_stack_height := 64 * 1024
    max_memory_pages := 16
    gas_limit := 128 * 1024 }

/-- Modelled from the spec: the gas-metering check is performed by the
out-of-scope interpreter/instrumentation layer (not under `src/`), which
"must check remaining gas at each metered instruction and raise
`RuntimeError::GasLimit`". A metered operation charging `amount` gas
against accumulated counter `counter` under limit `limit` either exceeds
the budget (reported as `GasLimit`) or advances the counter. -/
def chargeGas (limit counter amount : Nat) : Except RuntimeError Nat :=
  if counter + amount > limit then Except.error RuntimeError.GasLimit
  else Except.ok (counter + amount)

/-- C1: the trap-kind translation maps an unreachable instruction to
`Unreachable`, an out-of-bounds memory access to `MemoryAccessViolation`,
a table access out of bounds or an uninitialized table element to
`InvalidVirtualCall`, division by zero to `DivisionByZero`, an invalid
conversion to integer to `InvalidConversionToInt`, an unexpected call
signature to `InvalidVirtualCall`, a stack overflow to `StackOverflow`,
and a host-raised fault to `Other`; the two distinct inputs
table-access-out-of-bounds and unexpected-signature converge on the same
output `InvalidVirtualCall`. -/
theorem trap_translation_table :
    RuntimeError.fromTrap ⟨TrapKind.Unreachable⟩ = RuntimeError.Unreachable ∧
    RuntimeError.fromTrap ⟨TrapKind.MemoryAccessOutOfBounds⟩ = RuntimeError.MemoryAccessViolation ∧
    RuntimeError.fromTrap ⟨TrapKind.TableAccessOutOfBounds⟩ = RuntimeError.InvalidVirtualCall ∧
    RuntimeError.fromTrap ⟨TrapKind.ElemUninitialized⟩ = RuntimeError.InvalidVirtualCall ∧
    RuntimeError.fromTrap ⟨TrapKind.DivisionByZero⟩ = RuntimeError.DivisionByZero ∧
    RuntimeError.fromTrap ⟨TrapKind.InvalidConversionToInt⟩ = RuntimeError.InvalidConversionToInt ∧
    RuntimeError.fromTrap ⟨TrapKind.UnexpectedSignature⟩ = RuntimeError.InvalidVirtualCall ∧
    RuntimeError.fromTrap ⟨TrapKind.StackOverflow⟩ = RuntimeError.StackOverflow ∧
    (∀ p : Nat, RuntimeError.fromTrap ⟨TrapKind.Host p⟩ = RuntimeError.Other) ∧
    RuntimeError.fromTrap ⟨TrapKind.TableAccessOutOfBounds⟩ =
      RuntimeError.fromTrap ⟨TrapKind.UnexpectedSignature⟩ :=
  ⟨rfl, rfl, rfl, rfl, rfl, rfl, rfl, rfl, fun _ => rfl, rfl⟩

/-- C2: the interpreter-error translation maps a value-type error to
`InvalidSyscall`, a memory-subsystem error to `MemoryAccessViolation`,
and every other interpreter error (enumerated constructor by
constructor) to the catch-all `Other`. -/
theorem interpreter_error_translation :
    (∀ s, RuntimeError.fromWasmiError (WasmiError.Value s) = RuntimeError.InvalidSyscall) ∧
    (∀ s, RuntimeError.fromWasmiError (WasmiError.Memory s) = RuntimeError.MemoryAccessViolation) ∧
    (∀ s, RuntimeError.fromWasmiError (WasmiError.Validation s) = RuntimeError.Other) ∧
    (∀ s, RuntimeError.fromWasmiError (WasmiError.Instantiation s) = RuntimeError.Other) ∧
    (∀ s, RuntimeError.fromWasmiError (WasmiError.Function s) = RuntimeError.Other) ∧
    (∀ s, RuntimeError.fromWasmiError (WasmiError.Table s) = RuntimeError.Other) ∧
    (∀ s, RuntimeError.fromWasmiError (WasmiError.Global s) = RuntimeError.Other) ∧
    (∀ t, RuntimeError.fromWasmiError (WasmiError.Trap t) = RuntimeError.Other) ∧
    (∀ p, RuntimeError.fromWasmiError (WasmiError.Host p) = RuntimeError.Other) :=
  ⟨fun _ => rfl, fun _ => rfl, fun _ => rfl, fun _ => rfl, fun _ => rfl,
   fun _ => rfl, fun _ => rfl, fun _ => rfl, fun _ => rfl⟩

/-- C3: the default configuration yields `grow_mem_cost=1`,
`regular_op_cost=1`, `return_data_per_byte_cost=1`,
`max_stack_height=65536`, `max_memory_pages=16`, `gas_limit=131072`. -/
theorem default_config_values :
    Config.default.grow_mem_cost = 1 ∧
    Config.default.regular_op_cost = 1 ∧
    Config.default.return_data_per_byte_cost = 1 ∧
    Config.default.max_stack_height = 65536 ∧
    Config.default.max_memory_pages = 16 ∧
    Config.default.gas_limit = 131072 :=
  ⟨rfl, rfl, rfl, rfl, rfl, rfl⟩

/-- C4: every `RuntimeError` variant other than `Panic` displays a fixed,
statically known string, and `Panic msg` displays `"Panic: " ++ msg`,
carrying the supplied message verbatim. -/
theorem display_strings :
    RuntimeError.displayString RuntimeError.StorageReadError = "Storage read error" ∧
    RuntimeError.displayString RuntimeError.StorageUpdateError = "Storage update error" ∧
    RuntimeError.displayString RuntimeError.MemoryAccessViolation = "Memory access violation" ∧
    RuntimeError.displayString RuntimeError.InvalidGasState = "Invalid gas state" ∧
    RuntimeError.displayString RuntimeError.BalanceQueryError
      = "Balance query resulted in an error" ∧
    RuntimeError.displayString RuntimeError.InvalidReturn = "Invalid return value" ∧
    RuntimeError.displayString RuntimeError.Unknown = "Unknown runtime function invoked" ∧
    RuntimeError.displayString RuntimeError.AllocationFailed
      = "Memory allocation failed (OOM)" ∧
    RuntimeError.displayString RuntimeError.BadUtf8
      = "String encoding is bad utf-8 sequence" ∧
    RuntimeError.displayString RuntimeError.GasLimit
      = "Invocation resulted in gas limit violated" ∧
    RuntimeError.displayString RuntimeError.Log
      = "Error occured while logging an event" ∧
    RuntimeError.displayString RuntimeError.InvalidSyscall
      = "Invalid syscall signature encountered at runtime" ∧
    RuntimeError.displayString RuntimeError.Other = "Other unspecified error" ∧
    RuntimeError.displayString RuntimeError.Unreachable
      = "Unreachable instruction encountered" ∧
    RuntimeError.displayString RuntimeError.InvalidVirtualCall = "Invalid virtual call" ∧
    RuntimeError.displayString RuntimeError.DivisionByZero = "Division by zero" ∧
    RuntimeError.displayString RuntimeError.StackOverflow = "Stack overflow" ∧
    RuntimeError.displayString RuntimeError.InvalidConversionToInt
      = "Invalid conversion to integer" ∧
    (∀ msg : String, RuntimeError.displayString (RuntimeError.Panic msg) = "Panic: " ++ msg) :=
  ⟨rfl, rfl, rfl, rfl, rfl, rfl, rfl, rfl, rfl, rfl, rfl, rfl, rfl, rfl, rfl, rfl,
   rfl, rfl, fun _ => rfl⟩

/-- C5: wrapping a `RuntimeError` into `Error::Runtime` (via the `From`
conversion) and a `PrepareError` into `Error::Prepare`, then
pattern-matching the corresponding case, recovers the inner value
exactly. -/
theorem wrapping_roundtrip :
    (∀ e : RuntimeError, (Error.fromRuntimeError e).runtimeInner = some e) ∧
    (∀ p : PrepareError, (Error.Prepare p).prepareInner = some p) :=
  ⟨fun _ => rfl, fun _ => rfl⟩

/-- C6: the conversions into the top-level `Error` are total functions
carrying their input verbatim: every trap is wrapped as `Error::Trap`
and every interpreter error as `Error::Interpreter`; neither conversion
loses the original failure (the wrapped value is recoverable and equal
to the input). -/
theorem error_wrapping_verbatim :
    (∀ t : Trap, Error.fromTrap t = Error.Trap t) ∧
    (∀ w : WasmiError, Error.fromWasmiError w = Error.Interpreter w) :=
  ⟨fun _ => rfl, fun _ => rfl⟩

/-- C7: totality of trap translation: for every trap the interpreter can
produce, the translation returns exactly one `RuntimeError`, and that
result is always one of the seven mapped target variants (no unmapped
case). -/
theorem trap_translation_total (t : Trap) :
    (∃! r : RuntimeError, RuntimeError.fromTrap t = r) ∧
    (RuntimeError.fromTrap t = RuntimeError.Unreachable ∨
     RuntimeError.fromTrap t = RuntimeError.MemoryAccessViolation ∨
     RuntimeError.fromTrap t = RuntimeError.InvalidVirtualCall ∨
     RuntimeError.fromTrap t = RuntimeError.DivisionByZero ∨
     RuntimeError.fromTrap t = RuntimeError.InvalidConversionToInt ∨
     RuntimeError.fromTrap t = RuntimeError.StackOverflow ∨
     RuntimeError.fromTrap t = RuntimeError.Other) := by
  refine ⟨⟨RuntimeError.fromTrap t, rfl, fun r h => h.symm⟩, ?_⟩
  obtain ⟨k⟩ := t
  cases k <;> simp [RuntimeError.fromTrap]

/-- C9: an interpreter error that wraps a trap is translated by the
interpreter-error path to the catch-all `Other`, even for traps (such as
division by zero or stack overflow) that the direct trap path translates
to a specific variant: the two conversion paths disagree on
trap-carrying interpreter errors. -/
theorem trap_paths_disagree :
    (∀ t : Trap, RuntimeError.fromWasmiError (WasmiError.Trap t) = RuntimeError.Other) ∧
    RuntimeError.fromTrap ⟨TrapKind.DivisionByZero⟩ = RuntimeError.DivisionByZero ∧
    RuntimeError.fromTrap ⟨TrapKind.StackOverflow⟩ = RuntimeError.StackOverflow ∧
    RuntimeError.fromWasmiError (WasmiError.Trap ⟨TrapKind.DivisionByZero⟩) ≠
      RuntimeError.fromTrap ⟨TrapKind.DivisionByZero⟩ ∧
    RuntimeError.fromWasmiError (WasmiError.Trap ⟨TrapKind.StackOverflow⟩) ≠
      RuntimeError.fromTrap ⟨TrapKind.StackOverflow⟩ :=
  ⟨fun _ => rfl, rfl, rfl, by decide, by decide⟩

/-- C10: over the non-`Panic` variants, the display strings are
injective: two distinct non-`Panic` variants never display the same
string. -/
theorem display_injective_non_panic (a b : RuntimeError)
    (ha : a.isPanic = false) (hb : b.isPanic = false) (hne : a ≠ b) :
    RuntimeError.displayString a ≠ RuntimeError.displayString b := by
  cases a <;> cases b <;>
    first
      | exact absurd rfl hne
      | decide
      | (simp only [RuntimeError.isPanic] at ha; exact absurd ha (by decide))
      | (simp only [RuntimeError.isPanic] at hb; exact absurd hb (by decide))

/-- Witness for C10 at the concrete pair `GasLimit`, `Other`. -/
theorem display_injective_non_panic_witness :
    RuntimeError.isPanic RuntimeError.GasLimit = false ∧
    RuntimeError.isPanic RuntimeError.Other = false ∧
    RuntimeError.GasLimit ≠ RuntimeError.Other ∧
    RuntimeError.displayString RuntimeError.GasLimit ≠
      RuntimeError.displayString RuntimeError.Other :=
  ⟨rfl, rfl, by decide,
   display_injective_non_panic RuntimeError.GasLimit RuntimeError.Other rfl rfl (by decide)⟩

/-- C8: under a configuration with `gas_limit = 0`, the very first
metered operation (charging a positive amount against a fresh counter)
is reported as `RuntimeError::GasLimit`, surfaced to the host as
`Error::Runtime(RuntimeError::GasLimit)`, never as success. The metering
check itself is modelled from the spec (see `chargeGas`). -/
theorem zero_budget_rejection (cfg : Config) (amount : Nat)
    (hlimit : cfg.gas_limit = 0) (hamount : 0 < amount) :
    chargeGas cfg.gas_limit 0 amount = Except.error RuntimeError.GasLimit ∧
    (chargeGas cfg.gas_limit 0 amount).mapError Error.fromRuntimeError =
      Except.error (Error.Runtime RuntimeError.GasLimit) := by
  have h : chargeGas cfg.gas_limit 0 amount = Except.error RuntimeError.GasLimit := by
    simp only [chargeGas, hlimit, Nat.zero_add]
    simp [hamount]
  exact ⟨h, by rw [h]; rfl⟩

/-- Witness for C8 at the concrete config with all defaults except
`gas_limit = 0`, charging one unit of gas. -/
theorem zero_budget_rejection_witness :
    (⟨1, 1, 1, 65536, 16, 0⟩ : Config).gas_limit = 0 ∧ 0 < 1 ∧
    chargeGas (⟨1, 1, 1, 65536, 16, 0⟩ : Config).gas_limit 0 1 =
      Except.error RuntimeError.GasLimit ∧
    (chargeGas (⟨1, 1, 1, 65536, 16, 0⟩ : Config).gas_limit 0 1).mapError
        Error.fromRuntimeError = Except.error (Error.Runtime RuntimeError.GasLimit) :=
  ⟨rfl, Nat.zero_lt_one,
   (zero_budget_rejection ⟨1, 1, 1, 65536, 16, 0⟩ 1 rfl Nat.zero_lt_one).1,
   (zero_budget_rejection ⟨1, 1, 1, 65536, 16, 0⟩ 1 rfl Nat.zero_lt_one).2⟩

end WasmTypes
